import Mathlib

/-!
# LED Video Wall Estimator — verification of the pricing engine

Shallow embedding of the pricing engine of the TrueNorth LED wall estimator:
the quantity-tiered rate interpolator, the two cost roll-up variants
(transparent with shipping and extras, masked with a tier markup), the
tier-to-markup table and the extras-line parser.  Python float arithmetic is
modelled over `ℚ`; dictionaries returned by the engine become structures;
integer inputs become `ℤ`.
-/

namespace LedWallEstimator

/-- `linear_price_per_m2` from `led_wall_estimator.py`: per-m² price for a
given quantity, linearly interpolated between `(low_qty, low_price)` and
`(high_qty, high_price)`, clamped below/above the endpoints. -/
def linear_price_per_m2 (qty : ℤ) (low_qty : ℤ := 1) (low_price : ℚ := 3400)
    (high_qty : ℤ := 25) (high_price : ℚ := 2720) : ℚ :=
  if qty ≤ low_qty then low_price
  else if high_qty ≤ qty then high_price
  else
    low_price + ((qty - low_qty : ℤ) : ℚ) / ((high_qty - low_qty : ℤ) : ℚ) *
      (high_price - low_price)

/-- The dictionary returned by `compute_costs` in `led_wall_estimator.py`
(transparent variant: itemized shipping and extras). -/
structure Breakdown where
  area_m2 : ℚ
  cabinets : ℤ
  width_m : ℚ
  height_m : ℚ
  base_price_m2 : ℚ
  base_hardware : ℚ
  controller_total : ℚ
  extras_total : ℚ
  shipping_pct : ℚ
  shipping_amount : ℚ
  grand_total : ℚ
  per_m2 : ℚ
  per_cabinet : ℚ
  order_total : ℚ

/-- `compute_costs` from `led_wall_estimator.py` (transparent variant).
Extras line items are modelled as (label, cost) pairs. -/
def compute_costs (cols rows qty : ℤ) (price_mode : String)
    (custom_price_m2 controller_cost shipping_pct : ℚ)
    (extra_items : List (String × ℚ)) : Breakdown :=
  let cabinet_w : ℚ := 0.5
  let cabinet_h : ℚ := 0.5
  let area_per_cab := cabinet_w * cabinet_h
  let cabinets : ℤ := cols * rows
  let area_m2 : ℚ := (cabinets : ℚ) * area_per_cab
  let base_price_m2 :=
    if price_mode = "Tiered (linear 1→25)" then linear_price_per_m2 qty
    else custom_price_m2
  let base_hardware := area_m2 * base_price_m2
  let controller_total := controller_cost
  let extras_total := (extra_items.map (fun x => x.2)).sum
  let subtotal := base_hardware + controller_total + extras_total
  let shipping_amount := subtotal * (shipping_pct / 100)
  let grand_total := subtotal + shipping_amount
  let per_m2 := if area_m2 > 0 then grand_total / area_m2 else 0
  let per_cab := if cabinets > 0 then grand_total / (cabinets : ℚ) else 0
  let order_total := grand_total * (qty : ℚ)
  { area_m2 := area_m2
    cabinets := cabinets
    width_m := (cols : ℚ) * cabinet_w
    height_m := (rows : ℚ) * cabinet_h
    base_price_m2 := base_price_m2
    base_hardware := base_hardware
    controller_total := controller_total
    extras_total := extras_total
    shipping_pct := shipping_pct
    shipping_amount := shipping_amount
    grand_total := grand_total
    per_m2 := per_m2
    per_cabinet := per_cab
    order_total := order_total }

end LedWallEstimator

namespace ProfitVersion3

/-- The dictionary returned by `compute_costs` in
`led_wall_estimator_profit_Version3.py` (masked variant: opaque markup,
no extras). -/
structure Breakdown where
  area_m2 : ℚ
  cabinets : ℤ
  width_m : ℚ
  height_m : ℚ
  base_price_m2 : ℚ
  base_hardware : ℚ
  controller_total : ℚ
  markup_pct : ℚ
  markup_amount : ℚ
  grand_total : ℚ
  per_m2 : ℚ
  per_cabinet : ℚ
  order_total : ℚ

/-- `linear_price_per_m2` from `led_wall_estimator_profit_Version3.py`
(textually identical algorithm to the transparent variant's). -/
def linear_price_per_m2 (qty : ℤ) (low_qty : ℤ := 1) (low_price : ℚ := 3400)
    (high_qty : ℤ := 25) (high_price : ℚ := 2720) : ℚ :=
  if qty ≤ low_qty then low_price
  else if high_qty ≤ qty then high_price
  else
    low_price + ((qty - low_qty : ℤ) : ℚ) / ((high_qty - low_qty : ℤ) : ℚ) *
      (high_price - low_price)

/-- `compute_costs` from `led_wall_estimator_profit_Version3.py`
(masked variant). -/
def compute_costs (cols rows qty : ℤ) (price_mode : String)
    (custom_price_m2 controller_cost markup_pct : ℚ) : Breakdown :=
  let cabinet_w : ℚ := 0.5
  let cabinet_h : ℚ := 0.5
  let area_per_cab := cabinet_w * cabinet_h
  let cabinets : ℤ := cols * rows
  let area_m2 : ℚ := (cabinets : ℚ) * area_per_cab
  let base_price_m2 :=
    if price_mode = "Tiered (linear 1→25)" then linear_price_per_m2 qty
    else custom_price_m2
  let base_hardware := area_m2 * base_price_m2
  let controller_total := controller_cost
  let subtotal := base_hardware + controller_total
  let markup_amount := subtotal * (markup_pct / 100)
  let grand_total := subtotal + markup_amount
  let per_m2 := if area_m2 > 0 then grand_total / area_m2 else 0
  let per_cab := if cabinets > 0 then grand_total / (cabinets : ℚ) else 0
  let order_total := grand_total * (qty : ℚ)
  { area_m2 := area_m2
    cabinets := cabinets
    width_m := (cols : ℚ) * cabinet_w
    height_m := (rows : ℚ) * cabinet_h
    base_price_m2 := base_price_m2
    base_hardware := base_hardware
    controller_total := controller_total
    markup_pct := markup_pct
    markup_amount := markup_amount
    grand_total := grand_total
    per_m2 := per_m2
    per_cabinet := per_cab
    order_total := order_total }

/-- The `_tier_to_markup` table from `led_wall_estimator_profit_Version3.py`,
with `.get(tier, 20)` falling back to 20 for an unknown key. -/
def tier_to_markup (tier : String) : ℤ :=
  if tier = "Level A" then 10
  else if tier = "Level B" then 20
  else if tier = "Level C" then 30
  else 20

end ProfitVersion3

namespace LedWallEstimator

/-- The `":" in line` test followed by `line.split(":", 1)` from the
extras-parsing loop in `led_wall_estimator.py`: `none` when the line has no
colon, otherwise the text before the first colon and the rest. -/
def splitOnceColon (s : String) : Option (String × String) :=
  match s.splitOn ":" with
  | [] => none
  | [_] => none
  | a :: b :: rest => some (a, String.intercalate ":" (b :: rest))

/-- One iteration of the extras-parsing loop in `led_wall_estimator.py`:
skip a line with no colon, try to parse the cost part (the `float(...)`
builtin is modelled by the parameter `pf`; a `ValueError` is `none`), and on
success return the trimmed label with the parsed cost. -/
def parseExtraLine (pf : String → Option ℚ) (line : String) :
    Option (String × ℚ) :=
  match splitOnceColon line with
  | none => none
  | some (label, cost) =>
    match pf cost.trim with
    | none => none
    | some c => some (label.trim, c)

/-- The accumulator of the extras-parsing loop in `led_wall_estimator.py`
(`extras.append(...)` inside `for line in ...`). -/
def extrasLoop (pf : String → Option ℚ) :
    List String → List (String × ℚ) → List (String × ℚ)
  | [], acc => acc
  | line :: restLines, acc =>
    match parseExtraLine pf line with
    | none => extrasLoop pf restLines acc
    | some item => extrasLoop pf restLines (acc ++ [item])

/-- The `extras` list built from the free-text line items in
`led_wall_estimator.py`, one parse attempt per input line. -/
def extras (pf : String → Option ℚ) (lines : List String) :
    List (String × ℚ) :=
  extrasLoop pf lines []

end LedWallEstimator

namespace AccessGate

/-- Modelled from the spec: the access levels of the admin-gated masked
variant, which is not among the files under version control here (only the
transparent and open-tier-selector variants are). -/
inductive AccessLevel where
  | Standard
  | Privileged
deriving DecidableEq

/-- Modelled from the spec: the admin-gated masked variant's tier
resolution — absent from the two source files — which under `Standard`
access forces the tier to the table's default entry `Level B` regardless of
the requested tier, and still reports the resolved tier back for display.
The markup table itself is `tier_to_markup` from
`led_wall_estimator_profit_Version3.py`. -/
def resolve_tier (access : AccessLevel) (requested : String) : String × ℤ :=
  match access with
  | AccessLevel.Standard => ("Level B", ProfitVersion3.tier_to_markup "Level B")
  | AccessLevel.Privileged => (requested, ProfitVersion3.tier_to_markup requested)

end AccessGate

theorem LedWallEstimator.est_cabinets_eq (cols rows qty : ℤ) (m : String)
    (cp cc sp : ℚ) (ex : List (String × ℚ)) :
    (LedWallEstimator.compute_costs cols rows qty m cp cc sp ex).cabinets
      = cols * rows := rfl

theorem LedWallEstimator.est_area_m2_eq (cols rows qty : ℤ) (m : String)
    (cp cc sp : ℚ) (ex : List (String × ℚ)) :
    (LedWallEstimator.compute_costs cols rows qty m cp cc sp ex).area_m2
      = ((cols * rows : ℤ) : ℚ) * (0.5 * 0.5) := rfl

theorem LedWallEstimator.est_base_price_m2_eq (cols rows qty : ℤ) (m : String)
    (cp cc sp : ℚ) (ex : List (String × ℚ)) :
    (LedWallEstimator.compute_costs cols rows qty m cp cc sp ex).base_price_m2
      = if m = "Tiered (linear 1→25)" then LedWallEstimator.linear_price_per_m2 qty
        else cp := rfl

theorem LedWallEstimator.est_grand_total_eq (cols rows qty : ℤ) (m : String)
    (cp cc sp : ℚ) (ex : List (String × ℚ)) :
    (LedWallEstimator.compute_costs cols rows qty m cp cc sp ex).grand_total
      = (((cols * rows : ℤ) : ℚ) * (0.5 * 0.5) *
            (if m = "Tiered (linear 1→25)" then LedWallEstimator.linear_price_per_m2 qty
             else cp) + cc + (ex.map (fun x => x.2)).sum) +
        (((cols * rows : ℤ) : ℚ) * (0.5 * 0.5) *
            (if m = "Tiered (linear 1→25)" then LedWallEstimator.linear_price_per_m2 qty
             else cp) + cc + (ex.map (fun x => x.2)).sum) * (sp / 100) := rfl

theorem LedWallEstimator.est_per_m2_eq (cols rows qty : ℤ) (m : String)
    (cp cc sp : ℚ) (ex : List (String × ℚ)) :
    (LedWallEstimator.compute_costs cols rows qty m cp cc sp ex).per_m2
      = if ((cols * rows : ℤ) : ℚ) * (0.5 * 0.5) > 0 then
          (LedWallEstimator.compute_costs cols rows qty m cp cc sp ex).grand_total /
            (((cols * rows : ℤ) : ℚ) * (0.5 * 0.5))
        else 0 := rfl

theorem LedWallEstimator.est_per_cabinet_eq (cols rows qty : ℤ) (m : String)
    (cp cc sp : ℚ) (ex : List (String × ℚ)) :
    (LedWallEstimator.compute_costs cols rows qty m cp cc sp ex).per_cabinet
      = if cols * rows > 0 then
          (LedWallEstimator.compute_costs cols rows qty m cp cc sp ex).grand_total /
            ((cols * rows : ℤ) : ℚ)
        else 0 := rfl

theorem ProfitVersion3.v3_cabinets_eq (cols rows qty : ℤ) (m : String)
    (cp cc mp : ℚ) :
    (ProfitVersion3.compute_costs cols rows qty m cp cc mp).cabinets
      = cols * rows := rfl

theorem ProfitVersion3.v3_area_m2_eq (cols rows qty : ℤ) (m : String)
    (cp cc mp : ℚ) :
    (ProfitVersion3.compute_costs cols rows qty m cp cc mp).area_m2
      = ((cols * rows : ℤ) : ℚ) * (0.5 * 0.5) := rfl

theorem ProfitVersion3.v3_base_price_m2_eq (cols rows qty : ℤ) (m : String)
    (cp cc mp : ℚ) :
    (ProfitVersion3.compute_costs cols rows qty m cp cc mp).base_price_m2
      = if m = "Tiered (linear 1→25)" then ProfitVersion3.linear_price_per_m2 qty
        else cp := rfl

theorem ProfitVersion3.v3_grand_total_eq (cols rows qty : ℤ) (m : String)
    (cp cc mp : ℚ) :
    (ProfitVersion3.compute_costs cols rows qty m cp cc mp).grand_total
      = (((cols * rows : ℤ) : ℚ) * (0.5 * 0.5) *
            (if m = "Tiered (linear 1→25)" then ProfitVersion3.linear_price_per_m2 qty
             else cp) + cc) +
        (((cols * rows : ℤ) : ℚ) * (0.5 * 0.5) *
            (if m = "Tiered (linear 1→25)" then ProfitVersion3.linear_price_per_m2 qty
             else cp) + cc) * (mp / 100) := rfl

theorem ProfitVersion3.v3_per_m2_eq (cols rows qty : ℤ) (m : String)
    (cp cc mp : ℚ) :
    (ProfitVersion3.compute_costs cols rows qty m cp cc mp).per_m2
      = if ((cols * rows : ℤ) : ℚ) * (0.5 * 0.5) > 0 then
          (ProfitVersion3.compute_costs cols rows qty m cp cc mp).grand_total /
            (((cols * rows : ℤ) : ℚ) * (0.5 * 0.5))
        else 0 := rfl

theorem ProfitVersion3.v3_per_cabinet_eq (cols rows qty : ℤ) (m : String)
    (cp cc mp : ℚ) :
    (ProfitVersion3.compute_costs cols rows qty m cp cc mp).per_cabinet
      = if cols * rows > 0 then
          (ProfitVersion3.compute_costs cols rows qty m cp cc mp).grand_total /
            ((cols * rows : ℤ) : ℚ)
        else 0 := rfl

theorem linear_price_agree (q a : ℤ) (b : ℚ) (c : ℤ) (d : ℚ) :
    ProfitVersion3.linear_price_per_m2 q a b c d
      = LedWallEstimator.linear_price_per_m2 q a b c d := rfl

/-- C1: `linear_price_per_m2` clamps to `low_price` for `qty ≤ low_qty`, to
`high_price` for `qty ≥ high_qty`, interpolates linearly strictly in between,
yields the average of the two prices at the exact midpoint quantity, and with
the default calibration `(1, 3400)–(25, 2720)` gives `3400` at quantity 1,
`2720` at quantity 25 and `3060` at quantity 13. -/
theorem C1_linear_price_per_m2_interpolates
    (qty low_qty high_qty : ℤ) (low_price high_price : ℚ)
    (hlh : low_qty < high_qty) :
    (qty ≤ low_qty →
      LedWallEstimator.linear_price_per_m2 qty low_qty low_price high_qty high_price
        = low_price) ∧
    (high_qty ≤ qty →
      LedWallEstimator.linear_price_per_m2 qty low_qty low_price high_qty high_price
        = high_price) ∧
    (low_qty < qty → qty < high_qty →
      LedWallEstimator.linear_price_per_m2 qty low_qty low_price high_qty high_price
        = low_price + ((qty - low_qty : ℤ) : ℚ) / ((high_qty - low_qty : ℤ) : ℚ) *
            (high_price - low_price)) ∧
    (2 * qty = low_qty + high_qty →
      LedWallEstimator.linear_price_per_m2 qty low_qty low_price high_qty high_price
        = (low_price + high_price) / 2) ∧
    LedWallEstimator.linear_price_per_m2 1 = 3400 ∧
    LedWallEstimator.linear_price_per_m2 25 = 2720 ∧
    LedWallEstimator.linear_price_per_m2 13 = 3060 := by
  refine ⟨?_, ?_, ?_, ?_,
    by norm_num [LedWallEstimator.linear_price_per_m2],
    by norm_num [LedWallEstimator.linear_price_per_m2],
    by norm_num [LedWallEstimator.linear_price_per_m2]⟩
  · intro h
    simp [LedWallEstimator.linear_price_per_m2, h]
  · intro h
    have h1 : ¬ qty ≤ low_qty := by omega
    simp [LedWallEstimator.linear_price_per_m2, h, h1]
  · intro h1 h2
    have h3 : ¬ qty ≤ low_qty := by omega
    have h4 : ¬ high_qty ≤ qty := by omega
    simp [LedWallEstimator.linear_price_per_m2, h3, h4]
  · intro hmid
    have h1 : low_qty < qty := by omega
    have h2 : qty < high_qty := by omega
    have h3 : ¬ qty ≤ low_qty := by omega
    have h4 : ¬ high_qty ≤ qty := by omega
    have hne : ((high_qty - low_qty : ℤ) : ℚ) ≠ 0 := by
      exact_mod_cast (by omega : (high_qty - low_qty : ℤ) ≠ 0)
    have hq : ((qty - low_qty : ℤ) : ℚ) * 2 = ((high_qty - low_qty : ℤ) : ℚ) := by
      have : (qty - low_qty) * 2 = high_qty - low_qty := by omega
      exact_mod_cast congrArg (fun z : ℤ => (z : ℚ)) this
    have e : ((qty - low_qty : ℤ) : ℚ) / ((high_qty - low_qty : ℤ) : ℚ) = 1 / 2 := by
      rw [div_eq_iff hne]
      linarith
    simp only [LedWallEstimator.linear_price_per_m2, h3, h4, if_false]
    rw [e]
    ring

/-- Witness for C1 at the calibration `(2, 100)–(10, 20)` and quantity 6
(the midpoint). -/
theorem C1_witness :
    (2 : ℤ) < 10 ∧
    LedWallEstimator.linear_price_per_m2 6 2 100 10 20 = (100 + 20) / 2 := by
  have h := C1_linear_price_per_m2_interpolates 6 2 10 100 20 (by decide)
  exact ⟨by decide, h.2.2.2.1 (by decide)⟩

/-- C2: in the transparent variant the roll-up satisfies
`subtotal = base_hardware + controller + extras`,
`shipping_amount = subtotal * shipping_pct / 100`,
`grand_total = subtotal + shipping_amount`; and the Custom-mode scenario
(rate 3000, 4×2 wall, controller 325, shipping 15 %, no extras) yields
subtotal 6325, shipping 948.75, grand total 7273.75, per-m² 3636.875 and
per-cabinet 909.21875. -/
theorem C2_transparent_rollup (cols rows qty : ℤ) (price_mode : String)
    (custom_price_m2 controller_cost shipping_pct : ℚ)
    (extra_items : List (String × ℚ))
    (hcols : 1 ≤ cols) (hrows : 1 ≤ rows) (hcc : 0 ≤ controller_cost) :
    ((LedWallEstimator.compute_costs cols rows qty price_mode custom_price_m2
        controller_cost shipping_pct extra_items).shipping_amount =
      ((LedWallEstimator.compute_costs cols rows qty price_mode custom_price_m2
          controller_cost shipping_pct extra_items).base_hardware +
        (LedWallEstimator.compute_costs cols rows qty price_mode custom_price_m2
          controller_cost shipping_pct extra_items).controller_total +
        (LedWallEstimator.compute_costs cols rows qty price_mode custom_price_m2
          controller_cost shipping_pct extra_items).extras_total) *
        shipping_pct / 100) ∧
    ((LedWallEstimator.compute_costs cols rows qty price_mode custom_price_m2
        controller_cost shipping_pct extra_items).grand_total =
      ((LedWallEstimator.compute_costs cols rows qty price_mode custom_price_m2
          controller_cost shipping_pct extra_items).base_hardware +
        (LedWallEstimator.compute_costs cols rows qty price_mode custom_price_m2
          controller_cost shipping_pct extra_items).controller_total +
        (LedWallEstimator.compute_costs cols rows qty price_mode custom_price_m2
          controller_cost shipping_pct extra_items).extras_total) +
        (LedWallEstimator.compute_costs cols rows qty price_mode custom_price_m2
          controller_cost shipping_pct extra_items).shipping_amount) ∧
    ((LedWallEstimator.compute_costs 4 2 1 "Custom fixed per-m2" 3000 325 15
        []).base_hardware +
      (LedWallEstimator.compute_costs 4 2 1 "Custom fixed per-m2" 3000 325 15
        []).controller_total +
      (LedWallEstimator.compute_costs 4 2 1 "Custom fixed per-m2" 3000 325 15
        []).extras_total = 6325) ∧
    (LedWallEstimator.compute_costs 4 2 1 "Custom fixed per-m2" 3000 325 15
        []).shipping_amount = 948.75 ∧
    (LedWallEstimator.compute_costs 4 2 1 "Custom fixed per-m2" 3000 325 15
        []).grand_total = 7273.75 ∧
    (LedWallEstimator.compute_costs 4 2 1 "Custom fixed per-m2" 3000 325 15
        []).per_m2 = 3636.875 ∧
    (LedWallEstimator.compute_costs 4 2 1 "Custom fixed per-m2" 3000 325 15
        []).per_cabinet = 909.21875 := by
  refine ⟨?_, ?_, ?_, ?_, ?_, ?_, ?_⟩ <;>
    simp [LedWallEstimator.compute_costs] <;> ring_nf <;> norm_num

/-- Witness for C2 at cols = 4, rows = 2, controller cost 325. -/
theorem C2_witness :
    (1 : ℤ) ≤ 4 ∧ (1 : ℤ) ≤ 2 ∧ (0 : ℚ) ≤ 325 ∧
    (LedWallEstimator.compute_costs 4 2 1 "Custom fixed per-m2" 3000 325 15
        []).grand_total = 7273.75 :=
  ⟨by norm_num, by norm_num, by norm_num,
    (C2_transparent_rollup 4 2 1 "Custom fixed per-m2" 3000 325 15 []
      (by norm_num) (by norm_num) (by norm_num)).2.2.2.2.1⟩

/-- C7: for every valid WallSpec (columns, rows ≥ 1) the transparent
breakdown satisfies `cabinets = columns * rows` and
`area = cabinets * 0.25` exactly, so the area is an exact integer multiple of
0.25; columns = 10, rows = 3 give 30 cabinets and area 7.5. -/
theorem C7_wallspec_invariant (cols rows qty : ℤ) (price_mode : String)
    (custom_price_m2 controller_cost shipping_pct : ℚ)
    (extra_items : List (String × ℚ))
    (hcols : 1 ≤ cols) (hrows : 1 ≤ rows) :
    (LedWallEstimator.compute_costs cols rows qty price_mode custom_price_m2
      controller_cost shipping_pct extra_items).cabinets = cols * rows ∧
    (LedWallEstimator.compute_costs cols rows qty price_mode custom_price_m2
        controller_cost shipping_pct extra_items).area_m2 =
      (((LedWallEstimator.compute_costs cols rows qty price_mode custom_price_m2
        controller_cost shipping_pct extra_items).cabinets : ℚ)) * 0.25 ∧
    (∃ k : ℤ, (LedWallEstimator.compute_costs cols rows qty price_mode
        custom_price_m2 controller_cost shipping_pct extra_items).area_m2 =
      (k : ℚ) * 0.25) ∧
    (LedWallEstimator.compute_costs 10 3 1 "Tiered (linear 1→25)" 0 0 0
      []).cabinets = 30 ∧
    (LedWallEstimator.compute_costs 10 3 1 "Tiered (linear 1→25)" 0 0 0
      []).area_m2 = 7.5 := by
  refine ⟨?_, ?_, ⟨cols * rows, ?_⟩, ?_, ?_⟩ <;>
    simp [LedWallEstimator.compute_costs] <;> norm_num

/-- Witness for C7 at cols = 10, rows = 3. -/
theorem C7_witness :
    (1 : ℤ) ≤ 10 ∧ (1 : ℤ) ≤ 3 ∧
    (LedWallEstimator.compute_costs 10 3 1 "Tiered (linear 1→25)" 0 0 0
      []).cabinets = 10 * 3 :=
  ⟨by norm_num, by norm_num,
    (C7_wallspec_invariant 10 3 1 "Tiered (linear 1→25)" 0 0 0 []
      (by norm_num) (by norm_num)).1⟩

theorem LedWallEstimator.est_order_total_eq (cols rows qty : ℤ) (m : String)
    (cp cc sp : ℚ) (ex : List (String × ℚ)) :
    (LedWallEstimator.compute_costs cols rows qty m cp cc sp ex).order_total
      = (LedWallEstimator.compute_costs cols rows qty m cp cc sp ex).grand_total *
        (qty : ℚ) := rfl

theorem ProfitVersion3.v3_order_total_eq (cols rows qty : ℤ) (m : String)
    (cp cc mp : ℚ) :
    (ProfitVersion3.compute_costs cols rows qty m cp cc mp).order_total
      = (ProfitVersion3.compute_costs cols rows qty m cp cc mp).grand_total *
        (qty : ℚ) := rfl

/-- C3: under Standard access the resolved tier and markup are forced to the
table's default `Level B` / 20 % no matter which tier the request carries,
and the resolved tier is still returned for display. -/
theorem C3_standard_access_forces_default_tier (requested : String) :
    AccessGate.resolve_tier AccessGate.AccessLevel.Standard requested
      = ("Level B", 20) ∧
    (AccessGate.resolve_tier AccessGate.AccessLevel.Standard requested).1
      = "Level B" ∧
    (AccessGate.resolve_tier AccessGate.AccessLevel.Standard requested).2
      = ProfitVersion3.tier_to_markup "Level B" := by
  refine ⟨?_, rfl, rfl⟩
  show ("Level B", ProfitVersion3.tier_to_markup "Level B")
    = (("Level B" : String), (20 : ℤ))
  simp [ProfitVersion3.tier_to_markup]

/-- C4: with degenerate calibration bounds (`high_qty ≤ low_qty`) the
interpolator does not fail at all — every quantity is caught by a clamp
branch, so it silently returns `low_price` when `qty ≤ low_qty` and
`high_price` otherwise, and the division is never reached. -/
theorem C4_degenerate_bounds_return_silently (qty low_qty high_qty : ℤ)
    (low_price high_price : ℚ) (h : high_qty ≤ low_qty) :
    LedWallEstimator.linear_price_per_m2 qty low_qty low_price high_qty
        high_price
      = if qty ≤ low_qty then low_price else high_price := by
  unfold LedWallEstimator.linear_price_per_m2
  by_cases h1 : qty ≤ low_qty
  · simp [h1]
  · have h2 : high_qty ≤ qty := by omega
    simp [h1, h2]

/-- Witness for C4 at the degenerate calibration `(5, 3400)–(3, 2720)` and
quantity 4: the function silently returns the low price. -/
theorem C4_witness :
    (3 : ℤ) ≤ 5 ∧
    LedWallEstimator.linear_price_per_m2 4 5 3400 3 2720
      = if (4 : ℤ) ≤ 5 then (3400 : ℚ) else 2720 :=
  ⟨by norm_num,
    C4_degenerate_bounds_return_silently 4 5 3 3400 2720 (by norm_num)⟩

/-- C5: the transparent variant with an empty extras list and shipping
percentage `pct` agrees with the masked variant with markup percentage `pct`
on area, cabinets, base hardware, grand total, per-m², per-cabinet and order
total, for every wall, quantity, pricing mode/rate and controller cost. -/
theorem C5_variants_agree (cols rows qty : ℤ) (price_mode : String)
    (custom_price_m2 controller_cost pct : ℚ) :
    (LedWallEstimator.compute_costs cols rows qty price_mode custom_price_m2
        controller_cost pct []).area_m2
      = (ProfitVersion3.compute_costs cols rows qty price_mode custom_price_m2
        controller_cost pct).area_m2 ∧
    (LedWallEstimator.compute_costs cols rows qty price_mode custom_price_m2
        controller_cost pct []).cabinets
      = (ProfitVersion3.compute_costs cols rows qty price_mode custom_price_m2
        controller_cost pct).cabinets ∧
    (LedWallEstimator.compute_costs cols rows qty price_mode custom_price_m2
        controller_cost pct []).base_hardware
      = (ProfitVersion3.compute_costs cols rows qty price_mode custom_price_m2
        controller_cost pct).base_hardware ∧
    (LedWallEstimator.compute_costs cols rows qty price_mode custom_price_m2
        controller_cost pct []).grand_total
      = (ProfitVersion3.compute_costs cols rows qty price_mode custom_price_m2
        controller_cost pct).grand_total ∧
    (LedWallEstimator.compute_costs cols rows qty price_mode custom_price_m2
        controller_cost pct []).per_m2
      = (ProfitVersion3.compute_costs cols rows qty price_mode custom_price_m2
        controller_cost pct).per_m2 ∧
    (LedWallEstimator.compute_costs cols rows qty price_mode custom_price_m2
        controller_cost pct []).per_cabinet
      = (ProfitVersion3.compute_costs cols rows qty price_mode custom_price_m2
        controller_cost pct).per_cabinet ∧
    (LedWallEstimator.compute_costs cols rows qty price_mode custom_price_m2
        controller_cost pct []).order_total
      = (ProfitVersion3.compute_costs cols rows qty price_mode custom_price_m2
        controller_cost pct).order_total := by
  have hg : (LedWallEstimator.compute_costs cols rows qty price_mode
      custom_price_m2 controller_cost pct []).grand_total
      = (ProfitVersion3.compute_costs cols rows qty price_mode custom_price_m2
      controller_cost pct).grand_total := by
    rw [LedWallEstimator.est_grand_total_eq, ProfitVersion3.v3_grand_total_eq]
    simp [linear_price_agree]
  refine ⟨rfl, rfl, rfl, hg, ?_, ?_, ?_⟩
  · rw [LedWallEstimator.est_per_m2_eq, ProfitVersion3.v3_per_m2_eq, hg]
  · rw [LedWallEstimator.est_per_cabinet_eq, ProfitVersion3.v3_per_cabinet_eq, hg]
  · rw [LedWallEstimator.est_order_total_eq, ProfitVersion3.v3_order_total_eq, hg]

/-- C8: both per-unit divisions are guarded — per-m² (resp. per-cabinet)
price is 0 when the area (resp. cabinet count) is 0 or less — and under
columns, rows ≥ 1 the zero branch is unreachable: the guarded expressions
equal the plain quotients.  Both variants. -/
theorem C8_per_unit_division_guards (cols rows qty : ℤ) (price_mode : String)
    (custom_price_m2 controller_cost shipping_pct markup_pct : ℚ)
    (extra_items : List (String × ℚ)) :
    ((LedWallEstimator.compute_costs cols rows qty price_mode custom_price_m2
        controller_cost shipping_pct extra_items).area_m2 ≤ 0 →
      (LedWallEstimator.compute_costs cols rows qty price_mode custom_price_m2
        controller_cost shipping_pct extra_items).per_m2 = 0) ∧
    ((LedWallEstimator.compute_costs cols rows qty price_mode custom_price_m2
        controller_cost shipping_pct extra_items).cabinets ≤ 0 →
      (LedWallEstimator.compute_costs cols rows qty price_mode custom_price_m2
        controller_cost shipping_pct extra_items).per_cabinet = 0) ∧
    (1 ≤ cols → 1 ≤ rows →
      (LedWallEstimator.compute_costs cols rows qty price_mode custom_price_m2
          controller_cost shipping_pct extra_items).per_m2
        = (LedWallEstimator.compute_costs cols rows qty price_mode
            custom_price_m2 controller_cost shipping_pct extra_items).grand_total /
          (LedWallEstimator.compute_costs cols rows qty price_mode
            custom_price_m2 controller_cost shipping_pct extra_items).area_m2 ∧
      (LedWallEstimator.compute_costs cols rows qty price_mode custom_price_m2
          controller_cost shipping_pct extra_items).per_cabinet
        = (LedWallEstimator.compute_costs cols rows qty price_mode
            custom_price_m2 controller_cost shipping_pct extra_items).grand_total /
          (((LedWallEstimator.compute_costs cols rows qty price_mode
            custom_price_m2 controller_cost shipping_pct extra_items).cabinets : ℤ) : ℚ)) ∧
    ((ProfitVersion3.compute_costs cols rows qty price_mode custom_price_m2
        controller_cost markup_pct).area_m2 ≤ 0 →
      (ProfitVersion3.compute_costs cols rows qty price_mode custom_price_m2
        controller_cost markup_pct).per_m2 = 0) ∧
    ((ProfitVersion3.compute_costs cols rows qty price_mode custom_price_m2
        controller_cost markup_pct).cabinets ≤ 0 →
      (ProfitVersion3.compute_costs cols rows qty price_mode custom_price_m2
        controller_cost markup_pct).per_cabinet = 0) ∧
    (1 ≤ cols → 1 ≤ rows →
      (ProfitVersion3.compute_costs cols rows qty price_mode custom_price_m2
          controller_cost markup_pct).per_m2
        = (ProfitVersion3.compute_costs cols rows qty price_mode
            custom_price_m2 controller_cost markup_pct).grand_total /
          (ProfitVersion3.compute_costs cols rows qty price_mode
            custom_price_m2 controller_cost markup_pct).area_m2 ∧
      (ProfitVersion3.compute_costs cols rows qty price_mode custom_price_m2
          controller_cost markup_pct).per_cabinet
        = (ProfitVersion3.compute_costs cols rows qty price_mode
            custom_price_m2 controller_cost markup_pct).grand_total /
          (((ProfitVersion3.compute_costs cols rows qty price_mode
            custom_price_m2 controller_cost markup_pct).cabinets : ℤ) : ℚ)) := by
  refine ⟨?_, ?_, ?_, ?_, ?_, ?_⟩
  · intro h
    rw [LedWallEstimator.est_area_m2_eq] at h
    rw [LedWallEstimator.est_per_m2_eq, if_neg (not_lt.mpr h)]
  · intro h
    rw [LedWallEstimator.est_cabinets_eq] at h
    rw [LedWallEstimator.est_per_cabinet_eq, if_neg (by omega : ¬ cols * rows > 0)]
  · intro h1 h2
    have hpos : (0 : ℤ) < cols * rows := mul_pos (by omega) (by omega)
    have hq : (0 : ℚ) < ((cols * rows : ℤ) : ℚ) := by exact_mod_cast hpos
    constructor
    · rw [LedWallEstimator.est_per_m2_eq,
        if_pos (by nlinarith : ((cols * rows : ℤ) : ℚ) * (0.5 * 0.5) > 0),
        LedWallEstimator.est_area_m2_eq]
    · rw [LedWallEstimator.est_per_cabinet_eq, if_pos hpos,
        LedWallEstimator.est_cabinets_eq]
  · intro h
    rw [ProfitVersion3.v3_area_m2_eq] at h
    rw [ProfitVersion3.v3_per_m2_eq, if_neg (not_lt.mpr h)]
  · intro h
    rw [ProfitVersion3.v3_cabinets_eq] at h
    rw [ProfitVersion3.v3_per_cabinet_eq, if_neg (by omega : ¬ cols * rows > 0)]
  · intro h1 h2
    have hpos : (0 : ℤ) < cols * rows := mul_pos (by omega) (by omega)
    have hq : (0 : ℚ) < ((cols * rows : ℤ) : ℚ) := by exact_mod_cast hpos
    constructor
    · rw [ProfitVersion3.v3_per_m2_eq,
        if_pos (by nlinarith : ((cols * rows : ℤ) : ℚ) * (0.5 * 0.5) > 0),
        ProfitVersion3.v3_area_m2_eq]
    · rw [ProfitVersion3.v3_per_cabinet_eq, if_pos hpos,
        ProfitVersion3.v3_cabinets_eq]

/-- Witness for C8: at a 0×5 wall the zero-guard fires; at a 4×2 wall the
per-m² price is the plain quotient. -/
theorem C8_witness :
    ((LedWallEstimator.compute_costs 0 5 1 "Custom" 3000 325 15 []).area_m2 ≤ 0 ∧
      (LedWallEstimator.compute_costs 0 5 1 "Custom" 3000 325 15 []).per_m2 = 0) ∧
    ((1 : ℤ) ≤ 4 ∧ (1 : ℤ) ≤ 2 ∧
      (LedWallEstimator.compute_costs 4 2 1 "Custom" 3000 325 15 []).per_m2
        = (LedWallEstimator.compute_costs 4 2 1 "Custom" 3000 325 15 []).grand_total /
          (LedWallEstimator.compute_costs 4 2 1 "Custom" 3000 325 15 []).area_m2) := by
  have harea : (LedWallEstimator.compute_costs 0 5 1 "Custom" 3000 325 15
      []).area_m2 ≤ 0 := by
    rw [LedWallEstimator.est_area_m2_eq]; norm_num
  exact ⟨⟨harea,
      (C8_per_unit_division_guards 0 5 1 "Custom" 3000 325 15 0 []).1 harea⟩,
    by norm_num, by norm_num,
    ((C8_per_unit_division_guards 4 2 1 "Custom" 3000 325 15 0 []).2.2.1
      (by norm_num) (by norm_num)).1⟩

/-- C10: pricing-mode dispatch is exact string equality with no error
branch — any mode string other than exactly "Tiered (linear 1→25)" silently
takes the Custom path and uses `custom_price_m2` as the base rate, in both
variants. -/
theorem C10_unrecognized_mode_takes_custom_path (cols rows qty : ℤ)
    (price_mode : String)
    (custom_price_m2 controller_cost shipping_pct markup_pct : ℚ)
    (extra_items : List (String × ℚ))
    (h : price_mode ≠ "Tiered (linear 1→25)") :
    (LedWallEstimator.compute_costs cols rows qty price_mode custom_price_m2
        controller_cost shipping_pct extra_items).base_price_m2
      = custom_price_m2 ∧
    (ProfitVersion3.compute_costs cols rows qty price_mode custom_price_m2
        controller_cost markup_pct).base_price_m2
      = custom_price_m2 := by
  constructor
  · rw [LedWallEstimator.est_base_price_m2_eq, if_neg h]
  · rw [ProfitVersion3.v3_base_price_m2_eq, if_neg h]

/-- Witness for C10 at the misspelled mode "Tiered (linear 1->25)"
(ASCII arrow): the Custom path is taken. -/
theorem C10_witness :
    "Tiered (linear 1->25)" ≠ "Tiered (linear 1→25)" ∧
    (LedWallEstimator.compute_costs 2 2 1 "Tiered (linear 1->25)" 3000 325 15
        []).base_price_m2 = 3000 :=
  ⟨by decide,
    (C10_unrecognized_mode_takes_custom_path 2 2 1 "Tiered (linear 1->25)"
      3000 325 15 0 [] (by decide)).1⟩

theorem linear_price_default_bounds (qty : ℤ) :
    2720 ≤ LedWallEstimator.linear_price_per_m2 qty ∧
    LedWallEstimator.linear_price_per_m2 qty ≤ 3400 := by
  unfold LedWallEstimator.linear_price_per_m2
  split
  · norm_num
  · split
    · norm_num
    · next h1 h2 =>
      have hn : (0 : ℚ) ≤ ((qty - 1 : ℤ) : ℚ) := by
        exact_mod_cast (by omega : (0 : ℤ) ≤ qty - 1)
      have hd : ((qty - 1 : ℤ) : ℚ) ≤ ((25 - 1 : ℤ) : ℚ) := by
        exact_mod_cast (by omega : (qty - 1 : ℤ) ≤ 25 - 1)
      have hfrac0 : 0 ≤ ((qty - 1 : ℤ) : ℚ) / ((25 - 1 : ℤ) : ℚ) :=
        div_nonneg hn (by norm_num)
      have hfrac1 : ((qty - 1 : ℤ) : ℚ) / ((25 - 1 : ℤ) : ℚ) ≤ 1 := by
        rw [div_le_one (by norm_num)]
        exact le_trans hd (by norm_num)
      constructor <;> nlinarith

theorem base_price_nonneg (qty : ℤ) (m : String) (cp : ℚ) (hcp : 0 ≤ cp) :
    0 ≤ if m = "Tiered (linear 1→25)" then
          LedWallEstimator.linear_price_per_m2 qty
        else cp := by
  split
  · linarith [(linear_price_default_bounds qty).1]
  · exact hcp

theorem rollup_mono_subtotal (s t p : ℚ) (hp : 0 ≤ p) (hst : s ≤ t) :
    s + s * (p / 100) ≤ t + t * (p / 100) := by
  nlinarith [mul_nonneg (sub_nonneg.mpr hst) hp]

theorem rollup_mono_pct (s p q : ℚ) (hs : 0 ≤ s) (hpq : p ≤ q) :
    s + s * (p / 100) ≤ s + s * (q / 100) := by
  nlinarith [mul_nonneg hs (sub_nonneg.mpr hpq)]

/-- C6: holding the other inputs fixed, the transparent grand total is
monotonically non-decreasing in controller cost, extras total,
shipping/markup percentage and base rate, for a fixed wall, quantity and
non-negative rate inputs. -/
theorem C6_grand_total_monotone (cols rows qty : ℤ) (price_mode : String)
    (custom_price_m2 custom_price_m2' controller_cost controller_cost'
      shipping_pct shipping_pct' : ℚ)
    (extra_items extra_items' : List (String × ℚ))
    (hcols : 1 ≤ cols) (hrows : 1 ≤ rows)
    (hcp : 0 ≤ custom_price_m2) (hcc : 0 ≤ controller_cost)
    (hsp : 0 ≤ shipping_pct)
    (hex : 0 ≤ (extra_items.map (fun x => x.2)).sum) :
    (controller_cost ≤ controller_cost' →
      (LedWallEstimator.compute_costs cols rows qty price_mode custom_price_m2
          controller_cost shipping_pct extra_items).grand_total ≤
        (LedWallEstimator.compute_costs cols rows qty price_mode
          custom_price_m2 controller_cost' shipping_pct
          extra_items).grand_total) ∧
    ((extra_items.map (fun x => x.2)).sum ≤
        (extra_items'.map (fun x => x.2)).sum →
      (LedWallEstimator.compute_costs cols rows qty price_mode custom_price_m2
          controller_cost shipping_pct extra_items).grand_total ≤
        (LedWallEstimator.compute_costs cols rows qty price_mode
          custom_price_m2 controller_cost shipping_pct
          extra_items').grand_total) ∧
    (shipping_pct ≤ shipping_pct' →
      (LedWallEstimator.compute_costs cols rows qty price_mode custom_price_m2
          controller_cost shipping_pct extra_items).grand_total ≤
        (LedWallEstimator.compute_costs cols rows qty price_mode
          custom_price_m2 controller_cost shipping_pct'
          extra_items).grand_total) ∧
    (custom_price_m2 ≤ custom_price_m2' →
      (LedWallEstimator.compute_costs cols rows qty price_mode custom_price_m2
          controller_cost shipping_pct extra_items).grand_total ≤
        (LedWallEstimator.compute_costs cols rows qty price_mode
          custom_price_m2' controller_cost shipping_pct
          extra_items).grand_total) := by
  have hpos : (0 : ℤ) < cols * rows := mul_pos (by omega) (by omega)
  have harea : (0 : ℚ) ≤ ((cols * rows : ℤ) : ℚ) * (0.5 * 0.5) := by
    have : (0 : ℚ) ≤ ((cols * rows : ℤ) : ℚ) := by
      exact_mod_cast le_of_lt hpos
    nlinarith
  have hbp := base_price_nonneg qty price_mode custom_price_m2 hcp
  refine ⟨?_, ?_, ?_, ?_⟩
  · intro h
    rw [LedWallEstimator.est_grand_total_eq, LedWallEstimator.est_grand_total_eq]
    exact rollup_mono_subtotal _ _ _ hsp (by linarith)
  · intro h
    rw [LedWallEstimator.est_grand_total_eq, LedWallEstimator.est_grand_total_eq]
    exact rollup_mono_subtotal _ _ _ hsp (by linarith)
  · intro h
    rw [LedWallEstimator.est_grand_total_eq, LedWallEstimator.est_grand_total_eq]
    refine rollup_mono_pct _ _ _ ?_ h
    have := mul_nonneg harea hbp
    linarith
  · intro h
    rw [LedWallEstimator.est_grand_total_eq, LedWallEstimator.est_grand_total_eq]
    refine rollup_mono_subtotal _ _ _ hsp ?_
    by_cases hm : price_mode = "Tiered (linear 1→25)"
    · simp [hm]
    · simp only [hm, if_false]
      nlinarith [mul_le_mul_of_nonneg_left h harea]

/-- Witness for C6: raising the controller cost from 325 to 350 on a 2×3
wall does not lower the grand total. -/
theorem C6_witness :
    (1 : ℤ) ≤ 2 ∧ (1 : ℤ) ≤ 3 ∧ (0 : ℚ) ≤ 3000 ∧ (0 : ℚ) ≤ 325 ∧
    (0 : ℚ) ≤ 10 ∧
    (0 : ℚ) ≤ (([] : List (String × ℚ)).map (fun x => x.2)).sum ∧
    ((325 : ℚ) ≤ 350 ∧
      (LedWallEstimator.compute_costs 2 3 1 "Custom" 3000 325 10
          []).grand_total ≤
        (LedWallEstimator.compute_costs 2 3 1 "Custom" 3000 350 10
          []).grand_total) :=
  ⟨by norm_num, by norm_num, by norm_num, by norm_num, by norm_num,
    by simp,
    by norm_num,
    (C6_grand_total_monotone 2 3 1 "Custom" 3000 3000 325 350 10 10 [] []
      (by norm_num) (by norm_num) (by norm_num) (by norm_num) (by norm_num)
      (by simp)).1 (by norm_num)⟩

theorem extrasLoop_eq_filterMap (pf : String → Option ℚ) (ls : List String)
    (acc : List (String × ℚ)) :
    LedWallEstimator.extrasLoop pf ls acc
      = acc ++ ls.filterMap (LedWallEstimator.parseExtraLine pf) := by
  induction ls generalizing acc with
  | nil => simp [LedWallEstimator.extrasLoop]
  | cons l ls ih =>
    rw [LedWallEstimator.extrasLoop]
    cases h : LedWallEstimator.parseExtraLine pf l with
    | none => simp [h, ih, List.filterMap_cons]
    | some item => simp [h, ih, List.filterMap_cons]

/-- C9: the extras parser is a total per-line filter — the loop equals a
`filterMap` over the input lines (so malformed lines are skipped and the
computation never aborts), it never produces more items than lines, and a
single line yields an item exactly when it has a colon and its cost part
parses, in which case the item is the trimmed label with the parsed cost. -/
theorem C9_extras_skip_malformed_lines (pf : String → Option ℚ)
    (lines : List String) (line : String) :
    LedWallEstimator.extras pf lines
      = lines.filterMap (LedWallEstimator.parseExtraLine pf) ∧
    (LedWallEstimator.extras pf lines).length ≤ lines.length ∧
    LedWallEstimator.parseExtraLine pf line
      = (LedWallEstimator.splitOnceColon line).bind
          (fun lc => (pf lc.2.trim).map (fun c => (lc.1.trim, c))) := by
  have he : LedWallEstimator.extras pf lines
      = lines.filterMap (LedWallEstimator.parseExtraLine pf) := by
    rw [LedWallEstimator.extras, extrasLoop_eq_filterMap]
    simp
  refine ⟨he, ?_, ?_⟩
  · rw [he]
    exact List.length_filterMap_le _ _
  · rw [LedWallEstimator.parseExtraLine]
    cases h : LedWallEstimator.splitOnceColon line with
    | none => simp
    | some lc =>
      cases lc with
      | mk label cost =>
        cases hc : pf cost.trim <;> simp [hc]
